import Mathlib

set_option linter.unusedVariables false

/-!
Verification of the rule-based email classifier (the canonical, most
exclusion-complete variant of `EmailClassifier` — the hardened copy kept with
the project summary, which carries the invalid-input guard, the null-safe
field normalization, the Student-Outreach Reply stage, and the full exclusion
lists).

The JavaScript regular expressions used by the classifier only employ
literals, alternation `(a|b)`, optional groups `(...)?`, character classes
`[- ]`, `\d`, `\s+`, `.`/`.*`/`.+`, and the word-boundary assertion `\b`.
We embed exactly that fragment: a small regex AST `Reg` together with a
complete nondeterministic matcher (`mmatch` in continuation-passing style,
`searchFrom` for the unanchored search performed by JavaScript `test`).
`rtest r s` is true iff the regex `r` matches somewhere in `s`, which agrees
with `RegExp.prototype.test` for this fragment.
-/

/-- JavaScript `\w`: ASCII letters, digits and underscore. -/
def isWordChar (c : Char) : Bool :=
  decide ((97 ≤ Char.toNat c ∧ Char.toNat c ≤ 122) ∨
    (65 ≤ Char.toNat c ∧ Char.toNat c ≤ 90) ∨
    (48 ≤ Char.toNat c ∧ Char.toNat c ≤ 57) ∨ Char.toNat c = 95)

/-- The code points of JavaScript white space (the WhiteSpace and
LineTerminator productions: the character class `\s` and the set removed by
`String.prototype.trim`). -/
def jsWhitespaceCodes : List Nat :=
  [32, 9, 10, 11, 12, 13, 160, 5760, 8192, 8193, 8194, 8195, 8196, 8197,
   8198, 8199, 8200, 8201, 8202, 8232, 8233, 8239, 8287, 12288, 65279]

/-- JavaScript `\s`. -/
def isJsSpace (c : Char) : Bool :=
  decide (Char.toNat c ∈ jsWhitespaceCodes)

/-- JavaScript `.` (without the `s` flag): any character but a line
terminator. -/
def isDotChar (c : Char) : Bool :=
  !(c = Char.ofNat 10 || c = Char.ofNat 13 ||
    c = Char.ofNat 0x2028 || c = Char.ofNat 0x2029)

/-- JavaScript `\d`. -/
def isDigitChar (c : Char) : Bool :=
  Char.toNat c ≥ 48 && Char.toNat c ≤ 57

/-- Regex abstract syntax for the fragment used by the classifier.
Kleene star only ever occurs applied to a single character class in the
source patterns (`.*`, `.+`, `\s+`), so star is restricted to classes,
which keeps the matcher structurally terminating. -/
inductive Reg where
  | eps : Reg
  | cls (f : Char → Bool) : Reg
  | bnd : Reg
  | seq (a b : Reg) : Reg
  | alt (a b : Reg) : Reg
  | starCls (f : Char → Bool) : Reg

/-- Is the (optional) character a word character? `none` stands for the
edge of the string. -/
def wordOpt : Option Char → Bool
  | none => false
  | some c => isWordChar c

/-- Is the first character of the remaining input a word character? -/
def wordHead : List Char → Bool
  | [] => false
  | c :: _ => isWordChar c

/-- The `\b` assertion: a word/non-word transition between the previously
consumed character and the next input character. -/
def atBoundary (p : Option Char) (s : List Char) : Bool :=
  wordOpt p != wordHead s

/-- Matcher for `starCls f`: try the continuation after consuming any number
of characters satisfying `f`. -/
def matchStar (f : Char → Bool) (p : Option Char) (s : List Char)
    (k : Option Char → List Char → Bool) : Bool :=
  k p s ||
    match s with
    | [] => false
    | c :: rest => f c && matchStar f (some c) rest k

/-- Complete backtracking matcher in continuation-passing style.
`mmatch r p s k` is true iff some way of matching `r` against a prefix of
`s` (with `p` the character immediately before `s`, for `\b`) makes the
continuation `k` succeed on the leftover input. -/
def mmatch : Reg → Option Char → List Char → (Option Char → List Char → Bool) → Bool
  | .eps, p, s, k => k p s
  | .cls f, _, s, k =>
    match s with
    | [] => false
    | c :: rest => f c && k (some c) rest
  | .bnd, p, s, k => atBoundary p s && k p s
  | .seq a b, p, s, k => mmatch a p s (fun q t => mmatch b q t k)
  | .alt a b, p, s, k => mmatch a p s k || mmatch b p s k
  | .starCls f, p, s, k => matchStar f p s k

/-- Unanchored search: try to match at every suffix of the input. -/
def searchFrom (r : Reg) (p : Option Char) (s : List Char) : Bool :=
  mmatch r p s (fun _ _ => true) ||
    match s with
    | [] => false
    | c :: rest => searchFrom r (some c) rest

/-- JavaScript `re.test(s)`: does `r` match anywhere in `s`? -/
def rtest (r : Reg) (s : List Char) : Bool :=
  searchFrom r none s

/-! Smart constructors used to transcribe the source regex literals. -/

/-- A single literal character. -/
def chr (c : Char) : Reg := .cls (fun d => d = c)

/-- A literal word, one `chr` per character. -/
def litL : List Char → Reg
  | [] => .eps
  | c :: rest => .seq (chr c) (litL rest)

/-- A literal word from a string literal. -/
def lit (s : String) : Reg := litL s.data

/-- Right-nested sequencing of a list of regexes. -/
def cat : List Reg → Reg
  | [] => .eps
  | [r] => r
  | r :: rest => .seq r (cat rest)

/-- Alternation `(a|b|...)`. -/
def alts : List Reg → Reg
  | [] => .cls (fun _ => false)
  | [r] => r
  | r :: rest => .alt r (alts rest)

/-- An optional group `(...)?`. -/
def opt (r : Reg) : Reg := .alt r .eps

/-- `\s+`. -/
def wsp : Reg := .seq (.cls isJsSpace) (.starCls isJsSpace)

/-- `.*`. -/
def dotStar : Reg := .starCls isDotChar

/-- `.+`. -/
def dotPlus : Reg := .seq (.cls isDotChar) dotStar

/-- The character class `[- ]`. -/
def dashSpace : Reg := .cls (fun c => c = Char.ofNat 45 || c = Char.ofNat 32)

/-- `\d`. -/
def digit : Reg := .cls isDigitChar

/-- The apostrophe character. -/
def aposC : Char := Char.ofNat 39

/-- `'?` as it occurs in contractions such as `haven'?t`. -/
def aposOpt : Reg := opt (chr aposC)

/-! ## Pattern tables, transcribed one-for-one from the source regexes -/

/-- `checkSecurity`'s trigger patterns. -/
def securityPatterns : List Reg := [
  cat [Reg.bnd, lit "password", wsp,
    alts [lit "reset", lit "change", lit "update", lit "expired"], Reg.bnd],
  cat [Reg.bnd, lit "reset", wsp, lit "your", wsp, lit "password", Reg.bnd],
  cat [Reg.bnd, lit "account", wsp, lit "security", Reg.bnd],
  cat [Reg.bnd, lit "security", wsp, lit "alert", Reg.bnd],
  cat [Reg.bnd, lit "unusual", wsp,
    alts [cat [lit "sign", opt dashSpace, lit "in"], lit "activity"], Reg.bnd],
  cat [Reg.bnd, lit "verification", wsp, lit "code", Reg.bnd],
  cat [Reg.bnd, alts [lit "2fa", lit "mfa", cat [lit "two", dashSpace, lit "factor"]],
    Reg.bnd],
  cat [Reg.bnd, lit "compromised", wsp, lit "account", Reg.bnd],
  cat [Reg.bnd, lit "account", wsp, alts [lit "locked", lit "suspended"], Reg.bnd],
  cat [Reg.bnd, lit "suspicious", wsp, lit "activity", Reg.bnd]]

/-- `checkSecurity`'s tuition-savings exclusion,
`\bsaving.*\bon\s+tuition\b|\btuition.*\bsaving\b`. -/
def tuitionSavings : Reg :=
  alts [
    cat [Reg.bnd, lit "saving", dotStar, Reg.bnd, lit "on", wsp, lit "tuition", Reg.bnd],
    cat [Reg.bnd, lit "tuition", dotStar, Reg.bnd, lit "saving", Reg.bnd]]

/-- `checkStudentOutreach`'s acknowledgment patterns. -/
def responsePatterns : List Reg := [
  cat [Reg.bnd, lit "thank", wsp, lit "you", wsp, lit "for", wsp, lit "reaching",
    wsp, lit "out", Reg.bnd],
  cat [Reg.bnd, lit "thanks", wsp, lit "for", wsp, lit "reaching", wsp, lit "out",
    Reg.bnd],
  cat [Reg.bnd, lit "thank", wsp, lit "you", wsp, lit "for", wsp,
    opt (cat [lit "your", wsp]),
    alts [lit "email", lit "inquiry", lit "question", lit "interest"], Reg.bnd],
  cat [Reg.bnd, lit "in", wsp, lit "response", wsp, lit "to", wsp, lit "your", wsp,
    alts [lit "email", lit "inquiry", lit "question"], Reg.bnd]]

/-- `checkStudentAction`'s trigger patterns. -/
def studentActionPatterns : List Reg := [
  cat [Reg.bnd, lit "application", wsp,
    alts [lit "received", lit "complete", lit "submitted", lit "confirmation"],
    Reg.bnd],
  cat [Reg.bnd, lit "received", wsp, lit "your", wsp, lit "application", Reg.bnd],
  cat [Reg.bnd, lit "thank", wsp, lit "you", wsp, lit "for", wsp,
    alts [lit "applying", lit "submitting"], Reg.bnd],
  cat [Reg.bnd, lit "enrollment", wsp, lit "confirmation", Reg.bnd],
  cat [Reg.bnd, lit "confirmation", wsp, alts [lit "of", lit "for"], wsp,
    opt (cat [lit "your", wsp]), alts [lit "application", lit "enrollment"], Reg.bnd],
  cat [Reg.bnd, lit "your", wsp, lit "application", wsp,
    alts [cat [lit "has", wsp, lit "been"], lit "is"], wsp,
    alts [lit "received", lit "complete"], Reg.bnd]]

/-- `checkStudentAction`'s how-to-apply exclusion. -/
def howToApply : Reg :=
  alts [
    cat [Reg.bnd, lit "how", wsp, lit "to", wsp, lit "apply", Reg.bnd],
    cat [Reg.bnd, lit "apply", wsp, lit "now", Reg.bnd],
    cat [Reg.bnd, lit "start", wsp, opt (cat [lit "your", wsp]), lit "application",
      Reg.bnd]]

/-- `checkAccepted`'s trigger patterns. -/
def acceptedPatterns : List Reg := [
  cat [Reg.bnd, lit "accepted", wsp, opt (cat [lit "student", wsp]), lit "portal",
    Reg.bnd],
  cat [Reg.bnd, lit "your", wsp, opt (cat [lit "personalized", wsp]),
    lit "accepted", wsp, lit "portal", Reg.bnd],
  cat [Reg.bnd, lit "deposit", wsp,
    alts [lit "today", lit "now", lit "by", cat [lit "to", wsp, lit "reserve"]],
    Reg.bnd],
  cat [Reg.bnd, lit "reserve", wsp, lit "your", wsp, alts [lit "place", lit "spot"],
    Reg.bnd],
  cat [Reg.bnd, lit "congratulations", dotStar, Reg.bnd, lit "accepted", Reg.bnd],
  cat [Reg.bnd, lit "you", wsp,
    alts [cat [lit "have", wsp, lit "been"], lit "are", lit "were"], wsp,
    lit "accepted", Reg.bnd],
  cat [Reg.bnd, lit "admission", wsp, alts [lit "decision", lit "offer"], Reg.bnd],
  cat [Reg.bnd, lit "enroll", opt (lit "ment"), wsp, lit "deposit", Reg.bnd]]

/-- `direct (admit(ted)?|admission)`, shared by both halves of the
direct-admit exclusion. -/
def directAdmit : Reg :=
  cat [lit "direct", wsp, alts [cat [lit "admit", opt (lit "ted")], lit "admission"]]

/-- The simple (single-regex) exclusions of `checkAccepted`, in source order.
The two compound exclusions (reserve-your-spot + event word, and
interested-in-you + apply) are conjoined separately in `acceptedExcluded`. -/
def acceptedExclusionRegexes : List Reg := [
  alts [
    cat [Reg.bnd, lit "acceptance", wsp, lit "rate", Reg.bnd],
    cat [Reg.bnd, lit "high", wsp, lit "acceptance", Reg.bnd],
    cat [Reg.bnd, lit "pre", dashSpace, lit "admit", opt (lit "ted"), Reg.bnd],
    cat [Reg.bnd, lit "automatic", wsp, lit "admission", Reg.bnd]],
  alts [
    cat [Reg.bnd, directAdmit, Reg.bnd, dotStar, Reg.bnd,
      alts [lit "complete", lit "submit"], dotStar, Reg.bnd, lit "profile", Reg.bnd],
    cat [Reg.bnd, alts [lit "complete", lit "submit"], dotStar, Reg.bnd,
      lit "profile", Reg.bnd, dotStar, Reg.bnd, directAdmit, Reg.bnd]],
  cat [Reg.bnd, lit "you", wsp, lit "will", wsp, opt (cat [lit "also", wsp]),
    lit "receive", wsp, opt (cat [lit "a", opt (chr 'n'), wsp]),
    opt (cat [lit "accelerated", wsp]), lit "admission", wsp, lit "decision",
    Reg.bnd],
  cat [Reg.bnd, lit "receive", wsp, lit "an", wsp, lit "admission", wsp,
    lit "decision", wsp, lit "within", Reg.bnd],
  alts [
    cat [Reg.bnd, lit "priority", wsp, lit "student", Reg.bnd, dotStar, Reg.bnd,
      lit "submit", dotStar, lit "application", Reg.bnd],
    cat [Reg.bnd, lit "submit", dotStar, Reg.bnd, lit "priority", wsp,
      lit "student", wsp, lit "application", Reg.bnd]],
  cat [Reg.bnd, lit "submit", wsp, opt (cat [lit "your", wsp]),
    opt (cat [lit "the", wsp]), lit "application", Reg.bnd],
  cat [Reg.bnd, lit "once", wsp, lit "you", wsp,
    alts [lit "are", cat [lit "have", wsp, lit "been"]], wsp, lit "accepted",
    Reg.bnd],
  cat [Reg.bnd, lit "top", wsp, lit "candidate", Reg.bnd, dotStar, Reg.bnd,
    alts [lit "apply", cat [lit "start", dotStar, lit "application"],
      cat [lit "submit", dotStar, lit "application"]], Reg.bnd],
  cat [Reg.bnd, lit "invite", wsp, lit "you", wsp, lit "to", wsp, lit "apply",
    Reg.bnd],
  cat [Reg.bnd,
    alts [cat [lit "early", wsp, alts [lit "decision", lit "action"]],
      lit "priority"],
    Reg.bnd, dotStar, Reg.bnd, alts [lit "deadline", lit "apply", lit "application"],
    Reg.bnd, dotStar, Reg.bnd, alts [lit "approaching", lit "by", lit "extended"],
    Reg.bnd],
  alts [
    cat [Reg.bnd, lit "apply", wsp,
      alts [lit "by", lit "now", cat [lit "right", wsp, lit "away"], lit "today"],
      Reg.bnd],
    cat [Reg.bnd, lit "deadline", dotStar, Reg.bnd,
      alts [lit "december", lit "january", lit "february", lit "march"], Reg.bnd]],
  alts [
    cat [Reg.bnd, lit "panther", wsp, lit "priority", wsp, lit "application",
      Reg.bnd],
    cat [Reg.bnd, lit "priority", wsp, lit "application", Reg.bnd]],
  alts [
    cat [Reg.bnd, lit "deadline", wsp, lit "details", Reg.bnd],
    cat [Reg.bnd, lit "your", wsp, lit "deadline", Reg.bnd]],
  cat [Reg.bnd, lit "application", wsp, lit "deadline", wsp, lit "will", wsp,
    lit "be", Reg.bnd],
  alts [
    cat [Reg.bnd, lit "flip", wsp, lit "these", wsp, lit "pages", Reg.bnd],
    cat [Reg.bnd, lit "learn", wsp, lit "more", wsp, lit "about", wsp, lit "being",
      Reg.bnd]],
  cat [Reg.bnd, alts [lit "want", lit "wanted"], wsp, lit "to", wsp, lit "make",
    wsp, lit "sure", wsp, lit "you", aposOpt, lit "re", wsp, lit "ready", Reg.bnd],
  cat [Reg.bnd, lit "you", wsp, lit "have", wsp, lit "until", Reg.bnd, dotStar,
    Reg.bnd, alts [lit "midnight", lit "tonight", lit "today"], Reg.bnd, dotStar,
    Reg.bnd, lit "to", wsp, lit "apply", Reg.bnd],
  cat [Reg.bnd, lit "giving", wsp, lit "you", wsp, lit "until", Reg.bnd, dotStar,
    Reg.bnd, alts [lit "midnight", lit "tonight", lit "today"], Reg.bnd, dotStar,
    Reg.bnd, lit "to", wsp, lit "apply", Reg.bnd],
  cat [Reg.bnd, lit "apply", wsp, lit "by", wsp, lit "the", wsp,
    alts [lit "january", lit "february", lit "march", lit "april", lit "may",
      lit "june", lit "july", lit "august", lit "september", lit "october",
      lit "november", lit "december"],
    Reg.bnd, dotStar, Reg.bnd, lit "deadline", Reg.bnd],
  alts [
    cat [Reg.bnd, lit "fee", wsp, lit "waiver", Reg.bnd, dotStar, Reg.bnd,
      alts [lit "ends", lit "today", lit "tonight", cat [lit "last", wsp, lit "day"]],
      Reg.bnd],
    cat [Reg.bnd, alts [lit "today", lit "tonight"], dotStar, Reg.bnd, lit "last",
      wsp, lit "day", wsp, lit "for", dotStar, Reg.bnd, lit "fee", wsp,
      lit "waiver", Reg.bnd]],
  cat [Reg.bnd, lit "complete", wsp, lit "your", wsp, lit "application", Reg.bnd,
    dotStar, Reg.bnd,
    alts [lit "priority", lit "perks", lit "benefits",
      cat [lit "no", wsp, lit "application", wsp, lit "fee"],
      cat [lit "no", wsp, lit "essay"]],
    Reg.bnd],
  alts [
    cat [Reg.bnd, lit "apply", wsp, lit "for", wsp, lit "free", Reg.bnd],
    cat [Reg.bnd, lit "waiving", wsp, lit "your", dotStar, Reg.bnd, lit "fee",
      Reg.bnd],
    cat [Reg.bnd, lit "we", aposOpt, lit "re", wsp, lit "waiving", wsp, lit "your",
      Reg.bnd]],
  cat [Reg.bnd, lit "apply", wsp, lit "and", wsp, lit "enroll", Reg.bnd, dotStar,
    Reg.bnd, lit "free", Reg.bnd],
  alts [
    cat [Reg.bnd, lit "haven", aposOpt, lit "t", wsp, lit "received", wsp,
      lit "your", wsp, lit "application", Reg.bnd],
    cat [Reg.bnd, lit "we", wsp, lit "haven", aposOpt, lit "t", wsp,
      lit "received", Reg.bnd]]]

/-- `\breserve\s+your\s+spot\b` (first half of the compound event exclusion). -/
def reserveSpot : Reg :=
  cat [Reg.bnd, lit "reserve", wsp, lit "your", wsp, lit "spot", Reg.bnd]

/-- `\b(virtual|webinar|event|program|zoom|session)\b`. -/
def eventWord : Reg :=
  cat [Reg.bnd,
    alts [lit "virtual", lit "webinar", lit "event", lit "program", lit "zoom",
      lit "session"],
    Reg.bnd]

/-- `\bwe'?re\s+interested\s+in\s+you\b`. -/
def interestedInYou : Reg :=
  cat [Reg.bnd, lit "we", aposOpt, lit "re", wsp, lit "interested", wsp, lit "in",
    wsp, lit "you", Reg.bnd]

/-- `\bapply\b`. -/
def applyWord : Reg := cat [Reg.bnd, lit "apply", Reg.bnd]

/-- The full exclusion test of `checkAccepted`: any of the simple exclusions,
or either of the two compound (conjunctive) exclusions. -/
def acceptedExcluded (combined : List Char) : Bool :=
  acceptedExclusionRegexes.any (fun p => rtest p combined) ||
  (rtest reserveSpot combined && rtest eventWord combined) ||
  (rtest interestedInYou combined && rtest applyWord combined)

/-- `checkDualEnrollment`'s trigger patterns. -/
def dualEnrollmentIndicators : List Reg := [
  cat [Reg.bnd, lit "dual", wsp, lit "enrollment", Reg.bnd],
  cat [Reg.bnd, lit "course", wsp,
    alts [lit "registration", lit "deletion", lit "added", lit "dropped"], Reg.bnd],
  cat [Reg.bnd, lit "spring", wsp, digit, digit, digit, digit, wsp,
    alts [lit "course", cat [lit "on", dashSpace, lit "campus"]], Reg.bnd],
  cat [Reg.bnd, lit "how", wsp, lit "to", wsp, lit "register", Reg.bnd, dotStar,
    Reg.bnd, alts [lit "course", lit "class"]],
  cat [Reg.bnd, lit "cedarville", wsp, lit "university)", dotStar, Reg.bnd,
    alts [lit "course", lit "registration"], Reg.bnd]]

/-- `checkDualEnrollment`'s marketing exclusion,
`\blearn\s+more\s+about\b|\binterested\s+in\b|\bconsider\s+joining\b`. -/
def dualMarketing : Reg :=
  alts [
    cat [Reg.bnd, lit "learn", wsp, lit "more", wsp, lit "about", Reg.bnd],
    cat [Reg.bnd, lit "interested", wsp, lit "in", Reg.bnd],
    cat [Reg.bnd, lit "consider", wsp, lit "joining", Reg.bnd]]

/-- `checkDualEnrollment`'s explore-your-interests exclusion. -/
def dualExplore : Reg :=
  alts [
    cat [Reg.bnd, lit "freedom", wsp, lit "to", wsp, lit "explore", Reg.bnd,
      dotStar, Reg.bnd, lit "academic", wsp, lit "interests", Reg.bnd],
    cat [Reg.bnd, lit "majors", opt (chr ','), wsp, lit "minors", wsp, lit "and",
      wsp, lit "more", Reg.bnd]]

/-- `\bscholarship\b`: the bare scholarship-mention test (also the common tail
`\bscholarship\b` of several larger patterns). -/
def scholWord : Reg := cat [Reg.bnd, lit "scholarship", Reg.bnd]

/-- `\bapply\s+for\s+(the\s+)?.*\bscholarship\b`, tested against the subject
only. -/
def applyScholarshipSubject : Reg :=
  cat [Reg.bnd, lit "apply", wsp, lit "for", wsp, opt (cat [lit "the", wsp]),
    dotStar, scholWord]

/-- `\bpresident'?s\b|\bministry\b|\bimpact\b`: the named-scholarship test. -/
def namedScholarship : Reg :=
  alts [
    cat [Reg.bnd, lit "president", aposOpt, lit "s", Reg.bnd],
    cat [Reg.bnd, lit "ministry", Reg.bnd],
    cat [Reg.bnd, lit "impact", Reg.bnd]]

/-- `checkScholarship`'s not-awarded patterns, in source order. -/
def notAwardedPatterns : List Reg := [
  cat [Reg.bnd, lit "scholarship", Reg.bnd, dotStar, Reg.bnd,
    alts [lit "held", lit "reserved"], wsp, lit "for", wsp, lit "you", Reg.bnd],
  cat [Reg.bnd, alts [lit "held", lit "reserved"], wsp, lit "for", wsp, lit "you",
    Reg.bnd],
  cat [Reg.bnd, lit "consider", alts [lit "ed", lit "ation"], Reg.bnd, dotStar,
    scholWord],
  cat [Reg.bnd, lit "scholarship", Reg.bnd, dotStar, Reg.bnd, lit "consider",
    alts [lit "ed", lit "ation"], Reg.bnd],
  cat [Reg.bnd, lit "eligible", wsp, lit "for", Reg.bnd, dotStar, scholWord],
  cat [Reg.bnd, lit "scholarship", Reg.bnd, dotStar, Reg.bnd, lit "eligible",
    Reg.bnd],
  cat [Reg.bnd, lit "may", wsp, lit "qualify", Reg.bnd, dotStar, scholWord],
  cat [Reg.bnd, lit "guaranteed", wsp, lit "admission", Reg.bnd],
  cat [Reg.bnd, lit "priority", wsp, lit "consideration", Reg.bnd],
  cat [Reg.bnd, alts [lit "attend", cat [lit "register", wsp, lit "for"]], dotStar,
    Reg.bnd, lit "scholarship", wsp,
    alts [lit "day", lit "event", cat [lit "award", wsp, lit "event"]], Reg.bnd],
  cat [Reg.bnd, lit "scholarship", wsp, alts [lit "day", lit "event"], dotStar,
    Reg.bnd, alts [lit "attend", lit "register"], Reg.bnd],
  cat [Reg.bnd, lit "soar", wsp, opt (cat [lit "scholarship", wsp, lit "award", wsp]),
    lit "event", Reg.bnd],
  cat [Reg.bnd, lit "direct", wsp, lit "admission", Reg.bnd, dotStar, Reg.bnd,
    lit "scholarship", wsp, lit "form", Reg.bnd],
  cat [Reg.bnd, lit "scholarship", wsp, lit "form", Reg.bnd, dotStar, Reg.bnd,
    lit "direct", wsp, lit "admission", Reg.bnd],
  cat [Reg.bnd, lit "submit", wsp, opt (cat [lit "your", wsp]), dotStar, Reg.bnd,
    lit "scholarship", wsp, lit "form", Reg.bnd],
  cat [Reg.bnd, alts [lit "want", lit "wanted"], wsp, lit "to", wsp, lit "make",
    wsp, lit "sure", wsp, lit "you", aposOpt, lit "re", wsp, lit "ready", Reg.bnd,
    dotStar, scholWord],
  cat [Reg.bnd, lit "scholarship", wsp, lit "estimate", Reg.bnd],
  cat [Reg.bnd, lit "you", wsp, lit "have", wsp, lit "not", wsp,
    opt (cat [lit "yet", wsp]), lit "seen", wsp, lit "your", dotStar, scholWord],
  cat [Reg.bnd, lit "academic", wsp, lit "scholarship", wsp, lit "estimate",
    Reg.bnd],
  cat [Reg.bnd, lit "pre", dashSpace, lit "admission", Reg.bnd],
  cat [Reg.bnd, lit "scholarship", wsp, lit "deadline", wsp,
    alts [lit "approaching", lit "soon"], Reg.bnd],
  alts [
    cat [Reg.bnd, lit "scholarship", Reg.bnd, dotStar, Reg.bnd, lit "upon", wsp,
      lit "admission", Reg.bnd],
    cat [Reg.bnd, lit "upon", wsp, lit "admission", Reg.bnd, dotStar, scholWord]]]

/-- `checkScholarship`'s awarded patterns, in source order.  Each is built so
that, where the source regex literally ends in `\bscholarship\b`, the term
ends with `scholWord` as its final sequent. -/
def awardedPatterns : List Reg := [
  cat [Reg.bnd, lit "congratulations", Reg.bnd, dotStar, scholWord],
  cat [Reg.bnd, lit "you", wsp,
    alts [lit "have", lit "received", cat [lit "are", wsp, lit "awarded"],
      lit "won"],
    Reg.bnd, dotStar, scholWord],
  cat [Reg.bnd, lit "we", wsp, opt (cat [lit "are", wsp]),
    opt (cat [lit "pleased", wsp, lit "to", wsp]), lit "award", opt (lit "ing"),
    Reg.bnd, dotStar, scholWord],
  cat [Reg.bnd, lit "scholarship", wsp, alts [lit "offer", lit "award"], Reg.bnd],
  cat [Reg.bnd, lit "received", wsp, lit "a", wsp, lit "scholarship", Reg.bnd]]

/-- `checkFinancialAid`'s aid-is-ready patterns. -/
def readyPatterns : List Reg := [
  cat [Reg.bnd, lit "financial", wsp, lit "aid", Reg.bnd, dotStar, Reg.bnd,
    lit "offer", Reg.bnd, dotStar, Reg.bnd, alts [lit "ready", lit "available"],
    Reg.bnd],
  cat [Reg.bnd, alts [lit "ready", lit "available"], Reg.bnd, dotStar, Reg.bnd,
    lit "financial", wsp, lit "aid", Reg.bnd, dotStar, Reg.bnd, lit "offer",
    Reg.bnd],
  cat [Reg.bnd, lit "award", wsp, lit "letter", Reg.bnd, dotStar, Reg.bnd,
    alts [lit "ready", lit "available", lit "posted", lit "view"], Reg.bnd],
  cat [Reg.bnd, alts [lit "view", lit "review"], wsp, opt (cat [lit "your", wsp]),
    lit "award", wsp, lit "letter", Reg.bnd],
  cat [Reg.bnd, lit "financial", wsp, lit "aid", wsp, lit "package", Reg.bnd,
    dotStar, Reg.bnd, alts [lit "ready", lit "available", lit "posted"], Reg.bnd],
  cat [Reg.bnd, lit "your", wsp, lit "aid", wsp, lit "is", wsp, lit "ready",
    Reg.bnd]]

/-- `checkFinancialAid`'s application/FAFSA exclusion patterns. -/
def notReadyPatterns : List Reg := [
  cat [Reg.bnd, lit "learn", wsp, lit "more", wsp, lit "about", Reg.bnd, dotStar,
    Reg.bnd, lit "financial", wsp, lit "aid", Reg.bnd],
  cat [Reg.bnd, lit "apply", Reg.bnd, dotStar, Reg.bnd, opt (cat [lit "for", wsp]),
    lit "financial", wsp, lit "aid", Reg.bnd],
  cat [Reg.bnd, lit "financial", wsp, lit "aid", Reg.bnd, dotStar, Reg.bnd,
    lit "application", Reg.bnd],
  cat [Reg.bnd, lit "complete", wsp, opt (cat [lit "your", wsp]), lit "fafsa",
    Reg.bnd],
  cat [Reg.bnd, lit "considered", wsp, lit "for", Reg.bnd, dotStar, Reg.bnd,
    lit "aid", Reg.bnd],
  cat [Reg.bnd, lit "priority", wsp, alts [lit "deadline", lit "consideration"],
    Reg.bnd, dotStar, Reg.bnd, lit "financial", wsp, lit "aid", Reg.bnd]]

/-- `checkIrrelevant`'s marketing/newsletter patterns, in source order. -/
def irrelevantPatterns : List Reg := [
  cat [Reg.bnd, lit "student", wsp, lit "life", wsp, lit "blog", Reg.bnd],
  cat [Reg.bnd, opt (cat [lit "student", wsp, lit "life", wsp]), lit "blog", wsp,
    alts [lit "post", lit "update"], Reg.bnd],
  cat [Reg.bnd, lit "new", wsp, lit "student", wsp, lit "life", wsp, lit "blog",
    Reg.bnd],
  cat [Reg.bnd, lit "newsletter", Reg.bnd],
  cat [Reg.bnd, lit "weekly", wsp, alts [lit "digest", lit "update"], Reg.bnd],
  cat [Reg.bnd, lit "upcoming", wsp, lit "events", Reg.bnd],
  cat [Reg.bnd, lit "join", wsp, lit "us", wsp,
    alts [lit "for", lit "at", cat [lit "on", wsp, lit "zoom"]], Reg.bnd],
  cat [Reg.bnd, lit "open", wsp, lit "house", Reg.bnd],
  cat [Reg.bnd, lit "virtual", wsp, lit "tour", Reg.bnd],
  cat [Reg.bnd, lit "campus", wsp, alts [lit "visit", lit "tour", lit "event"],
    Reg.bnd],
  cat [Reg.bnd, lit "meet", wsp, alts [lit "the", lit "our"], wsp,
    alts [lit "students", lit "faculty"], Reg.bnd],
  cat [Reg.bnd, lit "haven", aposOpt, lit "t", wsp, lit "applied", dotStar,
    lit "yet", Reg.bnd],
  cat [Reg.bnd, lit "still", wsp, lit "time", wsp, lit "to", wsp, lit "apply",
    Reg.bnd],
  cat [Reg.bnd, lit "how", wsp, lit "is", wsp, lit "your", wsp, lit "college", wsp,
    lit "search", Reg.bnd],
  cat [Reg.bnd, lit "start", wsp, opt (cat [lit "your", wsp]), lit "college", wsp,
    lit "search", Reg.bnd],
  cat [Reg.bnd, lit "explore", wsp, opt (cat [lit "our", wsp]),
    alts [lit "programs", lit "campus"], Reg.bnd],
  cat [Reg.bnd, lit "i", wsp, lit "hope", wsp, lit "you", wsp, lit "have", wsp,
    lit "been", wsp, lit "receiving", wsp, lit "my", wsp, lit "emails", Reg.bnd],
  cat [Reg.bnd, lit "am", wsp, lit "i", wsp, lit "reaching", Reg.bnd],
  cat [Reg.bnd, lit "you", wsp, lit "are", wsp, lit "on", wsp, dotStar, wsp,
    alts [lit "radar", lit "list"], Reg.bnd],
  cat [Reg.bnd, lit "you", aposOpt, lit "re", wsp, lit "on", wsp,
    alts [lit "our", lit "my"], wsp, lit "radar", Reg.bnd],
  cat [Reg.bnd, lit "i", wsp, lit "want", wsp, lit "to", wsp, lit "make", wsp,
    lit "sure", wsp, lit "you", wsp, lit "know", Reg.bnd],
  cat [Reg.bnd, lit "you", aposOpt, lit "re", wsp, lit "invited", wsp, lit "to",
    wsp, lit "submit", Reg.bnd],
  cat [Reg.bnd, lit "i", aposOpt, lit "m", wsp, lit "eager", wsp, lit "to", wsp,
    lit "consider", wsp, lit "you", Reg.bnd],
  cat [Reg.bnd, lit "submit", wsp, lit "your", wsp, dotStar, wsp,
    lit "application", Reg.bnd],
  cat [Reg.bnd, lit "priority", wsp, lit "status", Reg.bnd, dotStar, Reg.bnd,
    lit "submit", dotStar, lit "application", Reg.bnd],
  cat [Reg.bnd, lit "top", wsp, lit "candidate", Reg.bnd, dotStar, Reg.bnd,
    lit "invite", wsp, lit "you", wsp, lit "to", wsp, lit "apply", Reg.bnd],
  cat [Reg.bnd, lit "invite", wsp, lit "you", wsp, lit "to", wsp, lit "apply",
    Reg.bnd],
  cat [Reg.bnd, lit "extended", dotStar, Reg.bnd, lit "priority", wsp,
    lit "deadline", Reg.bnd],
  cat [Reg.bnd, lit "priority", wsp, lit "deadline", dotStar, Reg.bnd,
    lit "extended", Reg.bnd],
  cat [Reg.bnd, lit "summer", wsp, alts [lit "academy", lit "camp", lit "program"],
    Reg.bnd],
  cat [Reg.bnd, lit "save", wsp, lit "the", wsp, lit "date", Reg.bnd],
  cat [Reg.bnd, lit "ugly", wsp, lit "sweater", Reg.bnd],
  cat [Reg.bnd, lit "it", aposOpt, lit "s", wsp, dotPlus, wsp, lit "season",
    Reg.bnd],
  cat [Reg.bnd, lit "join", wsp, lit "us", dotStar, Reg.bnd,
    alts [cat [lit "virtual", wsp, lit "program"], lit "zoom"], Reg.bnd, dotStar,
    Reg.bnd, alts [lit "scholarship", cat [lit "financial", wsp, lit "aid"]],
    Reg.bnd],
  cat [Reg.bnd, lit "learn", wsp, lit "more", Reg.bnd, dotStar, Reg.bnd,
    alts [lit "scholarship", cat [lit "financial", wsp, lit "aid"]], wsp,
    alts [lit "opportunities", lit "options"], Reg.bnd],
  cat [Reg.bnd, alts [lit "scholarship", cat [lit "financial", wsp, lit "aid"]],
    wsp, alts [lit "opportunities", lit "options"], Reg.bnd, dotStar, Reg.bnd,
    lit "learn", wsp, lit "more", Reg.bnd]]

/-- `\bhaven'?t\s+applied\b`: the standalone not-applied test. -/
def haventApplied : Reg :=
  cat [Reg.bnd, lit "haven", aposOpt, lit "t", wsp, lit "applied", Reg.bnd]

/-! ## Data model -/

/-- The raw email record (the fields of `EmailInput`); each text field may be
absent/null, which upstream exporters are allowed to produce.  A value of
`Option EmailRec` models the dynamic argument of `classify`: `none` stands
for `null`/non-object input. -/
structure EmailRec where
  subject : Option String := none
  body : Option String := none
  «from» : Option String := none
  «to» : Option String := none
  cc : Option String := none
  date : Option String := none
deriving DecidableEq

/-- The classifier's verdict.  `matched_rules` is an optional field in the
source type (`matched_rules?: string[]`); the classifier always populates
it. -/
structure ClassificationResult where
  pertains : Bool
  reason : String
  confidence : ℚ
  matched_rules : Option (List String)
deriving DecidableEq

/-- A string made of the single apostrophe character (used to spell reason
strings containing contractions). -/
def aposS : String := String.singleton aposC

/-- `x || ''` on a nullable string field. -/
def orEmpty (o : Option String) : String := o.getD ""

/-- `String.prototype.toLowerCase`, character by character, as a character
list. -/
def lowerL (s : String) : List Char := s.data.map Char.toLower

/-- `String.prototype.toLowerCase` as a string-to-string function (used to
compare reason strings with the spec's lower-case quotations). -/
def lowerS (s : String) : String := String.mk (lowerL s)

/-- JavaScript `String.prototype.trim` on a character list. -/
def trimL (s : List Char) : List Char :=
  ((s.dropWhile isJsSpace).reverse.dropWhile isJsSpace).reverse

/-- `/^re:/i.test(subject.trim())`: the reply-marker test of
`checkStudentOutreach`. -/
def isReply (subject : List Char) : Bool :=
  match trimL subject with
  | r :: e :: c :: _ =>
    (r = Char.ofNat 114 || r = Char.ofNat 82) &&
    (e = Char.ofNat 101 || e = Char.ofNat 69) && c = Char.ofNat 58
  | _ => false

/-! ## The category checkers -/

/-- The verdict of the Security stage. -/
def securityResult : ClassificationResult :=
  { pertains := true, reason := "Security/password alert - always important",
    confidence := 1, matched_rules := some ["security_alert"] }

def checkSecurity (subject body combined : List Char) : Option ClassificationResult :=
  if securityPatterns.any (fun p => rtest p combined) then
    if rtest tuitionSavings combined then none
    else some securityResult
  else none

/-- The verdict of the Student-Outreach Reply stage. -/
def outreachResult : ClassificationResult :=
  { pertains := true, reason := "Reply to student" ++ aposS ++ "s outreach email",
    confidence := mkRat 95 100, matched_rules := some ["student_outreach_reply"] }

def checkStudentOutreach (subject body combined : List Char) :
    Option ClassificationResult :=
  if isReply subject then
    if responsePatterns.any (fun p => rtest p combined) then some outreachResult
    else none
  else none

/-- The verdict of the Student-Action Confirmation stage. -/
def actionResult : ClassificationResult :=
  { pertains := true,
    reason := "Confirmation of student action (application/enrollment)",
    confidence := mkRat 95 100, matched_rules := some ["student_action_confirmation"] }

def checkStudentAction (subject body combined : List Char) :
    Option ClassificationResult :=
  if studentActionPatterns.any (fun p => rtest p combined) then
    if rtest howToApply combined then none
    else some actionResult
  else none

/-- The verdict of the Accepted-Student stage. -/
def acceptedResult : ClassificationResult :=
  { pertains := true, reason := "Accepted student portal/deposit information",
    confidence := mkRat 95 100, matched_rules := some ["accepted_student"] }

def checkAccepted (subject body combined : List Char) :
    Option ClassificationResult :=
  if acceptedPatterns.any (fun p => rtest p combined) then
    if acceptedExcluded combined then none
    else some acceptedResult
  else none

/-- The verdict of the Dual-Enrollment stage. -/
def dualEnrollmentResult : ClassificationResult :=
  { pertains := true, reason := "Dual enrollment course information",
    confidence := mkRat 9 10, matched_rules := some ["dual_enrollment"] }

def checkDualEnrollment (subject body combined fromAddr : List Char) :
    Option ClassificationResult :=
  if dualEnrollmentIndicators.any (fun p => rtest p combined) then
    if rtest dualMarketing combined then none
    else if rtest dualExplore combined then none
    else some dualEnrollmentResult
  else none

/-- The verdict of the named-scholarship application-opportunity sub-check. -/
def scholarshipOppResult : ClassificationResult :=
  { pertains := true,
    reason := "Scholarship application opportunity for accepted student",
    confidence := mkRat 75 100, matched_rules := some ["scholarship_application_opportunity"] }

/-- The verdict of the scholarship not-awarded sub-check. -/
def scholarshipNotAwardedResult : ClassificationResult :=
  { pertains := false,
    reason := "Scholarship mentioned but not actually awarded (held/eligible/apply)",
    confidence := mkRat 9 10, matched_rules := some ["scholarship_not_awarded"] }

/-- The verdict of the scholarship awarded sub-check. -/
def scholarshipAwardedResult : ClassificationResult :=
  { pertains := true, reason := "Scholarship actually awarded",
    confidence := mkRat 95 100, matched_rules := some ["scholarship_awarded"] }

def checkScholarship (subject body combined : List Char) :
    Option ClassificationResult :=
  if rtest applyScholarshipSubject subject && rtest namedScholarship combined then
    some scholarshipOppResult
  else if rtest scholWord combined &&
      notAwardedPatterns.any (fun p => rtest p combined) then
    some scholarshipNotAwardedResult
  else if awardedPatterns.any (fun p => rtest p combined) then
    some scholarshipAwardedResult
  else none

/-- The verdict of the Financial-Aid-Ready stage. -/
def aidResult : ClassificationResult :=
  { pertains := true, reason := "Financial aid offer ready to review",
    confidence := mkRat 95 100, matched_rules := some ["financial_aid_ready"] }

def checkFinancialAid (subject body combined : List Char) :
    Option ClassificationResult :=
  if readyPatterns.any (fun p => rtest p combined) then
    if notReadyPatterns.any (fun p => rtest p combined) then none
    else some aidResult
  else none

/-- The verdict of the Irrelevant-Marketing stage's pattern list. -/
def irrelevantResult : ClassificationResult :=
  { pertains := false, reason := "Marketing/newsletter/unsolicited outreach",
    confidence := mkRat 95 100, matched_rules := some ["irrelevant_marketing"] }

/-- The verdict of the standalone not-applied check. -/
def notAppliedResult : ClassificationResult :=
  { pertains := false,
    reason := "Unsolicited email where student has not applied",
    confidence := mkRat 95 100, matched_rules := some ["not_applied"] }

def checkIrrelevant (subject body combined fromAddr : List Char) :
    Option ClassificationResult :=
  if irrelevantPatterns.any (fun p => rtest p combined) then some irrelevantResult
  else if rtest haventApplied combined then some notAppliedResult
  else none

/-! ## The dispatcher -/

/-- The fail-safe default verdict. -/
def defaultResult : ClassificationResult :=
  { pertains := false, reason := "No clear relevance indicators found",
    confidence := mkRat 3 10, matched_rules := some ["default_not_relevant"] }

/-- The distinguished invalid-input verdict. -/
def invalidResult : ClassificationResult :=
  { pertains := false, reason := "Invalid email object", confidence := 0,
    matched_rules := some ["invalid_input"] }

/-- The ordered chain of checkers: the first non-null verdict wins, the
default closes the chain. -/
def pipeline (subject body combined fromAddr : List Char) : ClassificationResult :=
  match checkSecurity subject body combined with
  | some r => r
  | none =>
  match checkStudentOutreach subject body combined with
  | some r => r
  | none =>
  match checkStudentAction subject body combined with
  | some r => r
  | none =>
  match checkAccepted subject body combined with
  | some r => r
  | none =>
  match checkDualEnrollment subject body combined fromAddr with
  | some r => r
  | none =>
  match checkScholarship subject body combined with
  | some r => r
  | none =>
  match checkFinancialAid subject body combined with
  | some r => r
  | none =>
  match checkIrrelevant subject body combined fromAddr with
  | some r => r
  | none => defaultResult

/-- The normalized (lower-cased, null-safe) subject. -/
def subjectOf (e : EmailRec) : List Char := lowerL (orEmpty e.subject)

/-- The normalized body. -/
def bodyOf (e : EmailRec) : List Char := lowerL (orEmpty e.body)

/-- The normalized from-address. -/
def fromOf (e : EmailRec) : List Char := lowerL (orEmpty e.«from»)

/-- `combined = subject + " " + body` on the normalized fields. -/
def combinedOf (e : EmailRec) : List Char :=
  subjectOf e ++ Char.ofNat 32 :: bodyOf e

/-- `EmailClassifier.classify`: the invalid-input guard, normalization, then
the checker chain. -/
def classify : Option EmailRec → ClassificationResult
  | none => invalidResult
  | some e => pipeline (subjectOf e) (bodyOf e) (combinedOf e) (fromOf e)

/-- The convenience wrapper `classifyEmail` (it constructs a fresh classifier
and delegates; the embedding collapses that to a plain call). -/
def classifyEmail (email : Option EmailRec) : ClassificationResult :=
  classify email

/-! ## Auxiliary definitions used by the proofs -/

/-- `Reaches p s q t`: the matcher state `(q, t)` (previous character `q`,
remaining input `t`) arises from `(p, s)` by consuming zero or more leading
characters. -/
inductive Reaches : Option Char → List Char → Option Char → List Char → Prop where
  | refl {p : Option Char} {s : List Char} : Reaches p s p s
  | step {p q : Option Char} {c : Char} {s t : List Char} :
      Reaches (some c) s q t → Reaches p (c :: s) q t

/-- `SubTail x r`: `x` is the final sequent of the right-nested sequence
`r`. -/
inductive SubTail (x : Reg) : Reg → Prop where
  | refl : SubTail x x
  | tail {a b : Reg} : SubTail x b → SubTail x (Reg.seq a b)

/-- The last character of `l`, or `p` if `l` is empty: the "previous
character" after the matcher consumes the literal `l`. -/
def lastD (l : List Char) (p : Option Char) : Option Char :=
  match l with
  | [] => p
  | c :: rest => lastD rest (some c)

/-- The fixed pool of verdicts the classifier can produce. -/
def allResults : List ClassificationResult :=
  [securityResult, outreachResult, actionResult, acceptedResult,
   dualEnrollmentResult, scholarshipOppResult, scholarshipNotAwardedResult,
   scholarshipAwardedResult, aidResult, irrelevantResult, notAppliedResult,
   defaultResult, invalidResult]

/-- The verdicts that can still be produced once the Accepted-Student stage
has declined. -/
def tailResults : List ClassificationResult :=
  [dualEnrollmentResult, scholarshipOppResult, scholarshipNotAwardedResult,
   scholarshipAwardedResult, aidResult, irrelevantResult, notAppliedResult,
   defaultResult]

/-- The verdicts possible once the Accepted-Student stage has declined. -/
def noAcceptedResults : List ClassificationResult :=
  [securityResult, outreachResult, actionResult, dualEnrollmentResult,
   scholarshipOppResult, scholarshipNotAwardedResult, scholarshipAwardedResult,
   aidResult, irrelevantResult, notAppliedResult, defaultResult]

/-! ## Matcher reachability lemmas

These connect a successful match of a composite pattern to matches of its
sub-patterns at reachable positions of the input; they let us prove, for
arbitrary inputs, facts such as "any match of an awarded-scholarship pattern
entails a match of the bare `\bscholarship\b` mention test". -/

theorem Reaches.trans {p q r : Option Char} {s t u : List Char}
    (h1 : Reaches p s q t) (h2 : Reaches q t r u) : Reaches p s r u := by
  induction h1 with
  | refl => exact h2
  | step _ ih => exact .step (ih h2)

/-- Successful Kleene-star matches pass a reachable state to the
continuation; the new previous character, if changed, satisfies the class. -/
theorem matchStarK {f : Char → Bool} {p : Option Char} {s : List Char}
    {k : Option Char → List Char → Bool} (h : matchStar f p s k = true) :
    ∃ q t, Reaches p s q t ∧ k q t = true ∧
      (q = p ∨ ∃ c, q = some c ∧ f c = true) := by
  induction s generalizing p with
  | nil =>
    unfold matchStar at h
    simp only [Bool.or_eq_true] at h
    rcases h with h | h
    · exact ⟨p, [], .refl, h, Or.inl rfl⟩
    · simp at h
  | cons c rest ih =>
    unfold matchStar at h
    simp only [Bool.or_eq_true, Bool.and_eq_true] at h
    rcases h with h | ⟨hc, h⟩
    · exact ⟨p, c :: rest, .refl, h, Or.inl rfl⟩
    · obtain ⟨q, t, hr, hk, hq⟩ := ih h
      refine ⟨q, t, .step hr, hk, Or.inr ?_⟩
      rcases hq with rfl | ⟨d, rfl, hfd⟩
      · exact ⟨c, rfl, hc⟩
      · exact ⟨d, rfl, hfd⟩

/-- A successful match hands the continuation a reachable state. -/
theorem reachK : ∀ (r : Reg) {p : Option Char} {s : List Char}
    {k : Option Char → List Char → Bool}, mmatch r p s k = true →
    ∃ q t, Reaches p s q t ∧ k q t = true := by
  intro r
  induction r with
  | eps => exact fun h => ⟨_, _, .refl, h⟩
  | cls f =>
    intro p s k h
    unfold mmatch at h
    match s, h with
    | c :: rest, h =>
      simp only [Bool.and_eq_true] at h
      exact ⟨some c, rest, .step .refl, h.2⟩
  | bnd =>
    intro p s k h
    unfold mmatch at h
    simp only [Bool.and_eq_true] at h
    exact ⟨p, s, .refl, h.2⟩
  | seq a b iha ihb =>
    intro p s k h
    obtain ⟨q, t, hr1, hb⟩ := iha h
    obtain ⟨q', t', hr2, hk⟩ := ihb hb
    exact ⟨q', t', hr1.trans hr2, hk⟩
  | alt a b iha ihb =>
    intro p s k h
    unfold mmatch at h
    simp only [Bool.or_eq_true] at h
    rcases h with h | h
    · exact iha h
    · exact ihb h
  | starCls f =>
    intro p s k h
    obtain ⟨q, t, hr, hk, _⟩ := matchStarK h
    exact ⟨q, t, hr, hk⟩

/-- If `r` matches at `(p, s)` and `x` is a tail of `r`, then `x` matches at
a reachable state. -/
theorem subTailK {x r : Reg} (hs : SubTail x r) :
    ∀ {p : Option Char} {s : List Char},
      mmatch r p s (fun _ _ => true) = true →
      ∃ q t, Reaches p s q t ∧ mmatch x q t (fun _ _ => true) = true := by
  induction hs with
  | refl => exact fun h => ⟨_, _, .refl, h⟩
  | tail _ ih =>
    intro p s h
    rename_i a b _
    have h' : mmatch a p s (fun q t => mmatch b q t (fun _ _ => true)) = true := h
    obtain ⟨q, t, hr, hb⟩ := reachK a h'
    obtain ⟨q', t', hr', hx⟩ := ih hb
    exact ⟨q', t', hr.trans hr', hx⟩

/-- Soundness of the unanchored search: a hit yields a reachable match
position. -/
theorem searchFrom_sound {r : Reg} {p : Option Char} {s : List Char}
    (h : searchFrom r p s = true) :
    ∃ q t, Reaches p s q t ∧ mmatch r q t (fun _ _ => true) = true := by
  induction s generalizing p with
  | nil =>
    unfold searchFrom at h
    simp only [Bool.or_eq_true] at h
    rcases h with h | h
    · exact ⟨p, [], .refl, h⟩
    · simp at h
  | cons c rest ih =>
    unfold searchFrom at h
    simp only [Bool.or_eq_true] at h
    rcases h with h | h
    · exact ⟨p, c :: rest, .refl, h⟩
    · obtain ⟨q, t, hr, hm⟩ := ih h
      exact ⟨q, t, .step hr, hm⟩

/-- Completeness of the unanchored search: a match anywhere reachable makes
the search succeed. -/
theorem searchFrom_complete {r : Reg} {q : Option Char} {t : List Char}
    (hm : mmatch r q t (fun _ _ => true) = true) :
    ∀ {p : Option Char} {s : List Char}, Reaches p s q t →
      searchFrom r p s = true := by
  intro p s h
  induction h with
  | refl => unfold searchFrom; simp [hm]
  | step _ ih =>
    unfold searchFrom
    simp only [Bool.or_eq_true]
    exact Or.inr (ih hm)

/-- Matches of a final sequent are implied by matches of the whole
pattern. -/
theorem rtest_subtail {x r : Reg} (hs : SubTail x r) {s : List Char}
    (h : rtest r s = true) : rtest x s = true := by
  obtain ⟨q, t, hr1, hm⟩ := searchFrom_sound h
  obtain ⟨q', t', hr2, hx⟩ := subTailK hs hm
  exact searchFrom_complete hx (hr1.trans hr2)

/-- Eliminating a literal match: the input starts with the literal and
the continuation runs after it. -/
theorem litK : ∀ (l : List Char) {p : Option Char} {s : List Char}
    {k : Option Char → List Char → Bool}, mmatch (litL l) p s k = true →
    ∃ rest, s = l ++ rest ∧ k (lastD l p) rest = true := by
  intro l
  induction l with
  | nil => exact fun h => ⟨_, rfl, h⟩
  | cons c rest ih =>
    intro p s k h
    cases s with
    | nil => simp [litL, mmatch] at h
    | cons d s' =>
      have h' : (decide (d = c) && mmatch (litL rest) (some d) s' k) = true := h
      simp only [Bool.and_eq_true, decide_eq_true_eq] at h'
      obtain ⟨rfl, h2⟩ := h'
      obtain ⟨r', hr', hk⟩ := ih h2
      exact ⟨r', by simp [hr'], hk⟩

/-- Introducing a literal match. -/
theorem litIntro : ∀ (l : List Char) {p : Option Char} {rest : List Char}
    {k : Option Char → List Char → Bool}, k (lastD l p) rest = true →
    mmatch (litL l) p (l ++ rest) k = true := by
  intro l
  induction l with
  | nil => exact fun h => h
  | cons c l' ih =>
    intro p rest k h
    show (decide (c = c) && mmatch (litL l') (some c) (l' ++ rest) k) = true
    simp only [Bool.and_eq_true, decide_eq_true_eq]
    exact ⟨trivial, ih h⟩

/-- A JavaScript whitespace character is not a word character. -/
theorem jsSpace_not_word {c : Char} (h : isJsSpace c = true) :
    isWordChar c = false := by
  have hmem := of_decide_eq_true h
  simp only [jsWhitespaceCodes, List.mem_cons, List.not_mem_nil, or_false]
    at hmem
  simp only [isWordChar, decide_eq_false_iff_not]
  omega

/-- `\bscholarship\s+(offer|award)\b` forces a `\bscholarship\b` match: the
matched occurrence of the literal is preceded by the same boundary and
followed by a whitespace character. -/
theorem w4_mention {s : List Char}
    (h : rtest (cat [Reg.bnd, lit "scholarship", wsp,
      alts [lit "offer", lit "award"], Reg.bnd]) s = true) :
    rtest scholWord s = true := by
  obtain ⟨q, t, hr, hm⟩ := searchFrom_sound h
  have hm' : (atBoundary q t &&
      mmatch (litL "scholarship".data) q t
        (fun q2 t2 => mmatch (cat [wsp, alts [lit "offer", lit "award"], Reg.bnd])
          q2 t2 (fun _ _ => true))) = true := hm
  simp only [Bool.and_eq_true] at hm'
  obtain ⟨hb, hlit⟩ := hm'
  obtain ⟨rest, ht, hK⟩ := litK "scholarship".data hlit
  rw [show lastD "scholarship".data q = some (Char.ofNat 112) from rfl] at hK
  cases rest with
  | nil => exact (Bool.false_ne_true (show (false : Bool) = true from hK)).elim
  | cons d r2 =>
    have hK2 : (isJsSpace d && matchStar isJsSpace (some d) r2
        (fun q3 t3 => mmatch (cat [alts [lit "offer", lit "award"], Reg.bnd])
          q3 t3 (fun _ _ => true))) = true := hK
    have hd : isJsSpace d = true := (Bool.and_eq_true _ _ |>.mp hK2).1
    have hment : mmatch scholWord q t (fun _ _ => true) = true := by
      show (atBoundary q t &&
        mmatch (litL "scholarship".data) q t
          (fun q2 t2 => atBoundary q2 t2 && true)) = true
      simp only [Bool.and_eq_true]
      refine ⟨hb, ?_⟩
      subst ht
      apply litIntro
      show (atBoundary (some (Char.ofNat 112)) (d :: r2) && true) = true
      have hw : isWordChar d = false := jsSpace_not_word hd
      simp [atBoundary, wordOpt, wordHead, hw]
      decide
    exact searchFrom_complete hment hr

/-- `\breceived\s+a\s+scholarship\b` forces a `\bscholarship\b` match: the
literal occurrence sits after a whitespace character and before the final
boundary. -/
theorem w5_mention {s : List Char}
    (h : rtest (cat [Reg.bnd, lit "received", wsp, lit "a", wsp,
      lit "scholarship", Reg.bnd]) s = true) :
    rtest scholWord s = true := by
  obtain ⟨q0, t0, hr0, hm0⟩ := searchFrom_sound h
  have hsub : SubTail (cat [wsp, lit "scholarship", Reg.bnd])
      (cat [Reg.bnd, lit "received", wsp, lit "a", wsp, lit "scholarship",
        Reg.bnd]) := by
    repeat first | exact SubTail.refl | apply SubTail.tail
  obtain ⟨q1, t1, hr1, hm1⟩ := subTailK hsub hm0
  cases t1 with
  | nil => exact (Bool.false_ne_true (show (false : Bool) = true from hm1)).elim
  | cons d t2 =>
    have hm2 : (isJsSpace d && matchStar isJsSpace (some d) t2
        (fun q2 t3 => mmatch (cat [lit "scholarship", Reg.bnd]) q2 t3
          (fun _ _ => true))) = true := hm1
    simp only [Bool.and_eq_true] at hm2
    obtain ⟨hd, hstar⟩ := hm2
    obtain ⟨q2, t3, hr2, hk2, hq2⟩ := matchStarK hstar
    have hq2s : ∃ c, q2 = some c ∧ isJsSpace c = true := by
      rcases hq2 with rfl | hc
      · exact ⟨d, rfl, hd⟩
      · exact hc
    obtain ⟨csp, rfl, hcsp⟩ := hq2s
    have hk3 : mmatch (litL "scholarship".data) (some csp) t3
        (fun q3 t4 => atBoundary q3 t4 && true) = true := hk2
    obtain ⟨rest, ht3, hbnd⟩ := litK "scholarship".data hk3
    have hment : mmatch scholWord (some csp) t3 (fun _ _ => true) = true := by
      show (atBoundary (some csp) t3 &&
        mmatch (litL "scholarship".data) (some csp) t3
          (fun q3 t4 => atBoundary q3 t4 && true)) = true
      simp only [Bool.and_eq_true]
      refine ⟨?_, hk3⟩
      subst ht3
      have hw : isWordChar csp = false := jsSpace_not_word hcsp
      simp [atBoundary, wordOpt, wordHead, hw]
      decide
    exact searchFrom_complete hment (hr0.trans (hr1.trans (.step hr2)))

/-- Any match of an awarded-scholarship pattern forces the bare
`\bscholarship\b` mention test to succeed, so `hasScholarshipMention` is
implied by any awarded phrase. -/
theorem awarded_mention {s : List Char}
    (h : awardedPatterns.any (fun p => rtest p s) = true) :
    rtest scholWord s = true := by
  simp only [awardedPatterns, List.any_cons, List.any_nil, Bool.or_eq_true,
    Bool.or_false] at h
  rcases h with h | h | h | h | h
  · exact rtest_subtail
      (by repeat first | exact SubTail.refl | apply SubTail.tail) h
  · exact rtest_subtail
      (by repeat first | exact SubTail.refl | apply SubTail.tail) h
  · exact rtest_subtail
      (by repeat first | exact SubTail.refl | apply SubTail.tail) h
  · exact w4_mention h
  · exact w5_mention h

/-! ## Checker output characterizations -/

theorem classify_some (e : EmailRec) :
    classify (some e) =
      pipeline (subjectOf e) (bodyOf e) (combinedOf e) (fromOf e) := rfl

theorem checkSecurity_cases (s b c : List Char) :
    checkSecurity s b c = none ∨ checkSecurity s b c = some securityResult := by
  unfold checkSecurity
  split
  · split
    · exact Or.inl rfl
    · exact Or.inr rfl
  · exact Or.inl rfl

theorem checkStudentOutreach_cases (s b c : List Char) :
    checkStudentOutreach s b c = none ∨
    checkStudentOutreach s b c = some outreachResult := by
  unfold checkStudentOutreach
  split
  · split
    · exact Or.inr rfl
    · exact Or.inl rfl
  · exact Or.inl rfl

theorem checkStudentAction_cases (s b c : List Char) :
    checkStudentAction s b c = none ∨
    checkStudentAction s b c = some actionResult := by
  unfold checkStudentAction
  split
  · split
    · exact Or.inl rfl
    · exact Or.inr rfl
  · exact Or.inl rfl

theorem checkAccepted_cases (s b c : List Char) :
    checkAccepted s b c = none ∨ checkAccepted s b c = some acceptedResult := by
  unfold checkAccepted
  split
  · split
    · exact Or.inl rfl
    · exact Or.inr rfl
  · exact Or.inl rfl

theorem checkDualEnrollment_cases (s b c f : List Char) :
    checkDualEnrollment s b c f = none ∨
    checkDualEnrollment s b c f = some dualEnrollmentResult := by
  unfold checkDualEnrollment
  split
  · split
    · exact Or.inl rfl
    · split
      · exact Or.inl rfl
      · exact Or.inr rfl
  · exact Or.inl rfl

theorem checkScholarship_cases (s b c : List Char) :
    checkScholarship s b c = none ∨
    checkScholarship s b c = some scholarshipOppResult ∨
    checkScholarship s b c = some scholarshipNotAwardedResult ∨
    checkScholarship s b c = some scholarshipAwardedResult := by
  unfold checkScholarship
  split
  · exact Or.inr (Or.inl rfl)
  · split
    · exact Or.inr (Or.inr (Or.inl rfl))
    · split
      · exact Or.inr (Or.inr (Or.inr rfl))
      · exact Or.inl rfl

theorem checkFinancialAid_cases (s b c : List Char) :
    checkFinancialAid s b c = none ∨ checkFinancialAid s b c = some aidResult := by
  unfold checkFinancialAid
  split
  · split
    · exact Or.inl rfl
    · exact Or.inr rfl
  · exact Or.inl rfl

theorem checkIrrelevant_cases (s b c f : List Char) :
    checkIrrelevant s b c f = none ∨
    checkIrrelevant s b c f = some irrelevantResult ∨
    checkIrrelevant s b c f = some notAppliedResult := by
  unfold checkIrrelevant
  split
  · exact Or.inr (Or.inl rfl)
  · split
    · exact Or.inr (Or.inr rfl)
    · exact Or.inl rfl

theorem pipeline_tail_mem (s b c f : List Char)
    (h1 : checkSecurity s b c = none)
    (h2 : checkStudentOutreach s b c = none)
    (h3 : checkStudentAction s b c = none)
    (h4 : checkAccepted s b c = none) :
    pipeline s b c f ∈ tailResults := by
  unfold pipeline
  rw [h1, h2, h3, h4]
  rcases checkDualEnrollment_cases s b c f with h | h <;> rw [h]
  case inr => exact (by decide : dualEnrollmentResult ∈ tailResults)
  rcases checkScholarship_cases s b c with h | h | h | h <;> rw [h]
  case inr.inl => exact (by decide : scholarshipOppResult ∈ tailResults)
  case inr.inr.inl => exact (by decide : scholarshipNotAwardedResult ∈ tailResults)
  case inr.inr.inr => exact (by decide : scholarshipAwardedResult ∈ tailResults)
  rcases checkFinancialAid_cases s b c with h | h <;> rw [h]
  case inr => exact (by decide : aidResult ∈ tailResults)
  rcases checkIrrelevant_cases s b c f with h | h | h <;> rw [h]
  case inr.inl => exact (by decide : irrelevantResult ∈ tailResults)
  case inr.inr => exact (by decide : notAppliedResult ∈ tailResults)
  exact (by decide : defaultResult ∈ tailResults)

theorem pipeline_mem (s b c f : List Char) : pipeline s b c f ∈ allResults := by
  unfold pipeline
  rcases checkSecurity_cases s b c with h | h <;> rw [h]
  case inr => exact (by decide : securityResult ∈ allResults)
  rcases checkStudentOutreach_cases s b c with h | h <;> rw [h]
  case inr => exact (by decide : outreachResult ∈ allResults)
  rcases checkStudentAction_cases s b c with h | h <;> rw [h]
  case inr => exact (by decide : actionResult ∈ allResults)
  rcases checkAccepted_cases s b c with h | h <;> rw [h]
  case inr => exact (by decide : acceptedResult ∈ allResults)
  rcases checkDualEnrollment_cases s b c f with h | h <;> rw [h]
  case inr => exact (by decide : dualEnrollmentResult ∈ allResults)
  rcases checkScholarship_cases s b c with h | h | h | h <;> rw [h]
  case inr.inl => exact (by decide : scholarshipOppResult ∈ allResults)
  case inr.inr.inl => exact (by decide : scholarshipNotAwardedResult ∈ allResults)
  case inr.inr.inr => exact (by decide : scholarshipAwardedResult ∈ allResults)
  rcases checkFinancialAid_cases s b c with h | h <;> rw [h]
  case inr => exact (by decide : aidResult ∈ allResults)
  rcases checkIrrelevant_cases s b c f with h | h | h <;> rw [h]
  case inr.inl => exact (by decide : irrelevantResult ∈ allResults)
  case inr.inr => exact (by decide : notAppliedResult ∈ allResults)
  exact (by decide : defaultResult ∈ allResults)

theorem pipeline_no_accepted (s b c f : List Char)
    (h4 : checkAccepted s b c = none) :
    pipeline s b c f ∈ noAcceptedResults := by
  unfold pipeline
  rcases checkSecurity_cases s b c with h | h <;> rw [h]
  case inr => exact (by decide : securityResult ∈ noAcceptedResults)
  rcases checkStudentOutreach_cases s b c with h | h <;> rw [h]
  case inr => exact (by decide : outreachResult ∈ noAcceptedResults)
  rcases checkStudentAction_cases s b c with h | h <;> rw [h]
  case inr => exact (by decide : actionResult ∈ noAcceptedResults)
  rw [h4]
  rcases checkDualEnrollment_cases s b c f with h | h <;> rw [h]
  case inr => exact (by decide : dualEnrollmentResult ∈ noAcceptedResults)
  rcases checkScholarship_cases s b c with h | h | h | h <;> rw [h]
  case inr.inl => exact (by decide : scholarshipOppResult ∈ noAcceptedResults)
  case inr.inr.inl =>
    exact (by decide : scholarshipNotAwardedResult ∈ noAcceptedResults)
  case inr.inr.inr =>
    exact (by decide : scholarshipAwardedResult ∈ noAcceptedResults)
  rcases checkFinancialAid_cases s b c with h | h <;> rw [h]
  case inr => exact (by decide : aidResult ∈ noAcceptedResults)
  rcases checkIrrelevant_cases s b c f with h | h | h <;> rw [h]
  case inr.inl => exact (by decide : irrelevantResult ∈ noAcceptedResults)
  case inr.inr => exact (by decide : notAppliedResult ∈ noAcceptedResults)
  exact (by decide : defaultResult ∈ noAcceptedResults)

/-- `pipeline` ignores the from-address: it is passed to two checkers but no
pattern of either ever consults it. -/
theorem pipeline_from_irrelevant (s b c f1 f2 : List Char) :
    pipeline s b c f1 = pipeline s b c f2 := rfl

/-! ## The claims -/

/-- Claim C1: if the combined text matches both an awarded-scholarship phrase
and a not-awarded phrase, and neither an earlier pipeline stage nor the
(stage-internal, first-tested) named-scholarship application-opportunity
sub-check captures the email, then classification returns the not-awarded
verdict: pertains=false, confidence 0.9, matched rule
"scholarship_not_awarded" — the not-awarded patterns are tested strictly
before the awarded patterns. -/
theorem scholarship_not_awarded_precedence (e : EmailRec)
    (hW : awardedPatterns.any (fun p => rtest p (combinedOf e)) = true)
    (hN : notAwardedPatterns.any (fun p => rtest p (combinedOf e)) = true)
    (hopp : (rtest applyScholarshipSubject (subjectOf e) &&
             rtest namedScholarship (combinedOf e)) = false)
    (h1 : checkSecurity (subjectOf e) (bodyOf e) (combinedOf e) = none)
    (h2 : checkStudentOutreach (subjectOf e) (bodyOf e) (combinedOf e) = none)
    (h3 : checkStudentAction (subjectOf e) (bodyOf e) (combinedOf e) = none)
    (h4 : checkAccepted (subjectOf e) (bodyOf e) (combinedOf e) = none)
    (h5 : checkDualEnrollment (subjectOf e) (bodyOf e) (combinedOf e)
      (fromOf e) = none) :
    classify (some e) = scholarshipNotAwardedResult ∧
    scholarshipNotAwardedResult.pertains = false ∧
    scholarshipNotAwardedResult.confidence = mkRat 9 10 ∧
    scholarshipNotAwardedResult.matched_rules = some ["scholarship_not_awarded"] := by
  refine ⟨?_, rfl, rfl, rfl⟩
  rw [classify_some]
  unfold pipeline
  rw [h1, h2, h3, h4, h5]
  have hcond : (rtest scholWord (combinedOf e) &&
      notAwardedPatterns.any (fun p => rtest p (combinedOf e))) = true :=
    Bool.and_eq_true _ _ |>.mpr ⟨awarded_mention hW, hN⟩
  have hsch : checkScholarship (subjectOf e) (bodyOf e) (combinedOf e) =
      some scholarshipNotAwardedResult := by
    unfold checkScholarship
    rw [if_neg (by simp [hopp]), if_pos hcond]
  rw [hsch]

/-- Witness for C1: "Scholarship offer" + "you may be eligible for a
scholarship" carries an awarded phrase and a not-awarded phrase; the
not-awarded verdict wins. -/
theorem scholarship_not_awarded_precedence_witness :
    classify (some { subject := some "Scholarship offer",
                     body := some "you may be eligible for a scholarship" }) =
      scholarshipNotAwardedResult :=
  (scholarship_not_awarded_precedence _ (by decide) (by decide) (by decide)
    (by decide) (by decide) (by decide) (by decide) (by decide)).1

/-- Claim C2: a Security trigger with no tuition-savings exclusion always
yields the Security verdict — pertains=true, confidence exactly 1.0, matched
rule "security_alert" — no matter what later categories would match, because
the Security stage is evaluated first. -/
theorem security_non_overridable (e : EmailRec)
    (htrig : securityPatterns.any (fun p => rtest p (combinedOf e)) = true)
    (hexcl : rtest tuitionSavings (combinedOf e) = false) :
    classify (some e) = securityResult ∧
    securityResult.pertains = true ∧
    securityResult.confidence = 1 ∧
    securityResult.matched_rules = some ["security_alert"] := by
  refine ⟨?_, rfl, rfl, rfl⟩
  rw [classify_some]
  unfold pipeline
  have h : checkSecurity (subjectOf e) (bodyOf e) (combinedOf e) =
      some securityResult := by
    unfold checkSecurity
    rw [if_pos htrig, if_neg (by simp [hexcl])]
  rw [h]

/-- Witness for C2: a password-reset subject with a newsletter body (a later
category's trigger) still classifies as the security alert. -/
theorem security_non_overridable_witness :
    classify (some { subject := some "Password Reset Required",
                     body := some "Check out our newsletter" }) =
      securityResult :=
  (security_non_overridable _ (by decide) (by decide)).1

/-- Claim C3: missing/null text fields are normalized to the empty string
(classification is unchanged when each absent field is replaced by
`some ""`), classification is total (never throws), and the all-empty and
all-missing records both fall through to the Default stage. -/
theorem missing_field_null_safety :
    (∀ e : EmailRec,
      classify (some e) =
        classify (some { subject := some (orEmpty e.subject),
                         body := some (orEmpty e.body),
                         «from» := some (orEmpty e.«from»),
                         «to» := some (orEmpty e.«to»),
                         cc := some (orEmpty e.cc),
                         date := e.date })) ∧
    classify (some { subject := some "", body := some "", «from» := some "",
                     «to» := some "", cc := some "" }) = defaultResult ∧
    classify (some {}) = defaultResult := by
  refine ⟨fun e => rfl, by decide, by decide⟩

/-- Claim C4: a null/non-object input immediately yields the distinguished
invalid-input verdict — pertains=false, confidence 0.0, reason
"invalid email object" (the source capitalizes the first letter), matched
rule "invalid_input" — with no normalization or pattern evaluation. -/
theorem invalid_input_verdict :
    classify none = invalidResult ∧
    invalidResult.pertains = false ∧
    invalidResult.confidence = 0 ∧
    lowerS invalidResult.reason = "invalid email object" ∧
    invalidResult.matched_rules = some ["invalid_input"] := by
  exact ⟨rfl, rfl, rfl, by decide, rfl⟩

/-- Claim C5: an Accepted-Student trigger plus any Accepted-Student exclusion
makes the stage decline: the accepted_student rule never appears in the
verdict, and (when the three earlier stages also declined) the final verdict
comes from the Dual-Enrollment, Scholarship, Financial-Aid,
Irrelevant-Marketing or Default stages. -/
theorem accepted_exclusion_voids (e : EmailRec)
    (htrig : acceptedPatterns.any (fun p => rtest p (combinedOf e)) = true)
    (hexcl : acceptedExcluded (combinedOf e) = true) :
    checkAccepted (subjectOf e) (bodyOf e) (combinedOf e) = none ∧
    (∀ r ∈ ((classify (some e)).matched_rules.getD []),
      r ≠ "accepted_student") ∧
    (checkSecurity (subjectOf e) (bodyOf e) (combinedOf e) = none →
     checkStudentOutreach (subjectOf e) (bodyOf e) (combinedOf e) = none →
     checkStudentAction (subjectOf e) (bodyOf e) (combinedOf e) = none →
     classify (some e) ∈ tailResults) := by
  have hacc : checkAccepted (subjectOf e) (bodyOf e) (combinedOf e) = none := by
    unfold checkAccepted
    rw [if_pos htrig, if_pos hexcl]
  refine ⟨hacc, ?_, ?_⟩
  · have hm : classify (some e) ∈ noAcceptedResults := by
      rw [classify_some]
      exact pipeline_no_accepted _ _ _ _ hacc
    simp only [noAcceptedResults, List.mem_cons, List.not_mem_nil,
      or_false] at hm
    rcases hm with h | h | h | h | h | h | h | h | h | h | h <;> rw [h] <;>
      decide
  · intro h1 h2 h3
    rw [classify_some]
    exact pipeline_tail_mem _ _ _ _ h1 h2 h3 hacc

/-- Witness for C5: "Enrollment deposit" + "Submit your application today"
hits an Accepted-Student trigger and its submit-application exclusion; the
verdict falls through to a later stage. -/
theorem accepted_exclusion_voids_witness :
    classify (some { subject := some "Enrollment deposit",
                     body := some "Submit your application today" }) ∈
      tailResults :=
  (accepted_exclusion_voids _ (by decide) (by decide)).2.2 (by decide)
    (by decide) (by decide)

/-- Claim C6: when every checker declines, the Default stage returns
pertains=false, confidence exactly 0.3 (< 0.5), reason
"no clear relevance indicators found" (the source capitalizes the first
letter) and matched rule "default_not_relevant". -/
theorem default_fail_closed (e : EmailRec)
    (h1 : checkSecurity (subjectOf e) (bodyOf e) (combinedOf e) = none)
    (h2 : checkStudentOutreach (subjectOf e) (bodyOf e) (combinedOf e) = none)
    (h3 : checkStudentAction (subjectOf e) (bodyOf e) (combinedOf e) = none)
    (h4 : checkAccepted (subjectOf e) (bodyOf e) (combinedOf e) = none)
    (h5 : checkDualEnrollment (subjectOf e) (bodyOf e) (combinedOf e)
      (fromOf e) = none)
    (h6 : checkScholarship (subjectOf e) (bodyOf e) (combinedOf e) = none)
    (h7 : checkFinancialAid (subjectOf e) (bodyOf e) (combinedOf e) = none)
    (h8 : checkIrrelevant (subjectOf e) (bodyOf e) (combinedOf e)
      (fromOf e) = none) :
    classify (some e) = defaultResult ∧
    defaultResult.pertains = false ∧
    defaultResult.confidence = mkRat 3 10 ∧
    defaultResult.confidence < mkRat 1 2 ∧
    lowerS defaultResult.reason = "no clear relevance indicators found" ∧
    defaultResult.matched_rules = some ["default_not_relevant"] := by
  refine ⟨?_, rfl, rfl, by decide, by decide, rfl⟩
  rw [classify_some]
  unfold pipeline
  rw [h1, h2, h3, h4, h5, h6, h7, h8]

/-- Witness for C6: the all-missing record matches nothing and lands on the
default verdict. -/
theorem default_fail_closed_witness :
    classify (some {}) = defaultResult :=
  (default_fail_closed {} (by decide) (by decide) (by decide) (by decide)
    (by decide) (by decide) (by decide) (by decide)).1

/-- Claim C7: past the Security stage, a subject beginning with the reply
marker "Re:" (case-insensitive, after trimming) plus an acknowledgment
phrase yields pertains=true with confidence 0.95 and matched rule
"student_outreach_reply"; without the reply marker this checker never
produces a verdict. -/
theorem student_outreach_reply_stage (e : EmailRec)
    (hsec : checkSecurity (subjectOf e) (bodyOf e) (combinedOf e) = none)
    (hre : isReply (subjectOf e) = true)
    (hack : responsePatterns.any (fun p => rtest p (combinedOf e)) = true) :
    classify (some e) = outreachResult ∧
    outreachResult.pertains = true ∧
    outreachResult.confidence = mkRat 95 100 ∧
    outreachResult.matched_rules = some ["student_outreach_reply"] ∧
    (∀ s b c : List Char, isReply s = false →
      checkStudentOutreach s b c = none) := by
  refine ⟨?_, rfl, rfl, rfl, ?_⟩
  · rw [classify_some]
    unfold pipeline
    rw [hsec]
    have h : checkStudentOutreach (subjectOf e) (bodyOf e) (combinedOf e) =
        some outreachResult := by
      unfold checkStudentOutreach
      rw [if_pos hre, if_pos hack]
    rw [h]
  · intro s b c hnot
    unfold checkStudentOutreach
    rw [if_neg (by simp [hnot])]

/-- Witness for C7: a "Re:" subject with "thank you for reaching out". -/
theorem student_outreach_reply_stage_witness :
    classify (some { subject := some "Re: Admissions question",
                     body := some "Thank you for reaching out to us" }) =
      outreachResult :=
  (student_outreach_reply_stage _ (by decide) (by decide) (by decide)).1

/-- Claim C8: classification is deterministic — two calls on the same input
yield identical results; in this embedding `classify` is a pure function of
the input record alone (`classifyEmail` constructs a fresh classifier and
delegates, returning the same value). -/
theorem classify_deterministic (x : Option EmailRec) :
    classify x = classify x ∧ classifyEmail x = classify x :=
  ⟨rfl, rfl⟩

/-- Claim C9: two inputs agreeing on subject and body (but arbitrary in
from, to, cc, date) classify identically: every pattern is matched against
the lower-cased subject, the combined text, or the subject alone; the from
field is passed to checkDualEnrollment and checkIrrelevant but never
consulted, and to, cc, date are never read. -/
theorem unused_fields_noninterference (e1 e2 : EmailRec)
    (hs : e1.subject = e2.subject) (hb : e1.body = e2.body) :
    classify (some e1) = classify (some e2) := by
  rw [classify_some, classify_some,
    show subjectOf e1 = subjectOf e2 by unfold subjectOf orEmpty; rw [hs],
    show bodyOf e1 = bodyOf e2 by unfold bodyOf orEmpty; rw [hb],
    show combinedOf e1 = combinedOf e2 by
      unfold combinedOf subjectOf bodyOf orEmpty; rw [hs, hb]]
  exact pipeline_from_irrelevant _ _ _ _ _

/-- Witness for C9: same subject and body, different from, to, cc and
date. -/
theorem unused_fields_noninterference_witness :
    classify (some { subject := some "Campus tour invite",
                     body := some "join us for a visit",
                     «from» := some "admissions@college.edu",
                     «to» := some "student@example.com" }) =
    classify (some { subject := some "Campus tour invite",
                     body := some "join us for a visit",
                     «from» := some "noreply@other.example",
                     cc := some "parent@example.com",
                     date := some "2025-12-05" }) :=
  unused_fields_noninterference _ _ rfl rfl

/-- Claim C10: every verdict carries one of the fixed per-rule confidence
constants 1.0, 0.95, 0.9, 0.75, 0.3 or (for invalid input) 0.0 — hence lies
in [0,1] — and matched_rules is always present and holds exactly one rule
identifier from the fixed thirteen-element rule-id set. -/
theorem result_shape_invariant (x : Option EmailRec) :
    ((classify x).confidence = 1 ∨ (classify x).confidence = mkRat 95 100 ∨
     (classify x).confidence = mkRat 9 10 ∨
     (classify x).confidence = mkRat 75 100 ∨
     (classify x).confidence = mkRat 3 10 ∨ (classify x).confidence = 0) ∧
    0 ≤ (classify x).confidence ∧ (classify x).confidence ≤ 1 ∧
    (classify x).matched_rules.isSome = true ∧
    ((classify x).matched_rules.getD []).length = 1 ∧
    (∀ r ∈ ((classify x).matched_rules.getD []),
      r ∈ ["security_alert", "student_outreach_reply",
        "student_action_confirmation", "accepted_student", "dual_enrollment",
        "scholarship_application_opportunity", "scholarship_not_awarded",
        "scholarship_awarded", "financial_aid_ready", "irrelevant_marketing",
        "not_applied", "default_not_relevant", "invalid_input"]) := by
  have hmem : classify x ∈ allResults := by
    cases x with
    | none => exact (by decide : invalidResult ∈ allResults)
    | some e => exact pipeline_mem _ _ _ _
  simp only [allResults, List.mem_cons, List.not_mem_nil, or_false] at hmem
  rcases hmem with h | h | h | h | h | h | h | h | h | h | h | h | h <;>
    rw [h] <;> decide
